import Mathlib

/-!
Verification of the push-notification delivery pipeline
(`services/push-notification-service/app/main.py`): a shallow embedding of
`CircuitBreaker.call` and `NotificationConsumer.process_message` together with
the collaborators they drive (`DatabaseManager`, `CacheManager`,
`MessageQueueManager`), and theorems settling the specified delivery,
retry/dead-letter, idempotency and circuit-breaker properties.
-/

namespace PushService

/-! ## Constants from the source -/

/-- `NotificationConsumer.max_retries` (main.py line 383). -/
def maxRetries : Nat := 3

/-- `MessageQueueManager.push_queue`. -/
def pushQueue : String := "push.queue"

/-- `MessageQueueManager.retry_queue`. -/
def retryQueue : String := "push.queue.retry"

/-- `MessageQueueManager.dead_letter_queue`. -/
def deadLetterQueue : String := "failed.queue"

/-- The error message used on the invalid-token path. -/
def invalidTokenMsg : String := "Invalid device token"

/-- Default TTL passed by `CacheManager.set_idempotency`. -/
def idemTTL : Nat := 86400

/-- Abstract `str(e)` for a `json.JSONDecodeError`. -/
def jsonError : String := "JSONDecodeError"

/-- Abstract `str(e)` for a pydantic `ValidationError`. -/
def validationError : String := "ValidationError"

/-- Abstract `str(e)` for an exception raised by the record store. -/
def dbError : String := "DBError"

/-- Abstract `str(e)` for an exception raised by the cache client. -/
def cacheError : String := "CacheError"

/-! ## Message data

`MsgData` models the JSON dict `data = json.loads(message.body)`, restricted
to the keys `process_message` reads or writes.  A field `some v` means the key
is present with value `v`; `none` means the key is absent. -/

structure MsgData where
  title : Option String := none
  body : Option String := none
  token : Option String := none
  idempotency_key : Option String := none
  user_id : Option String := none
  notification_id : Option String := none
  retry_count : Option Nat := none
  error : Option String := none
  deriving DecidableEq, Repr

/-- Python truthiness of an optional string (`None` and `""` are falsy). -/
def truthy : Option String → Bool
  | none => false
  | some s => !(s == "")

/-- Python dict truthiness: `if data:` is false exactly on the empty dict. -/
def MsgData.isEmpty (d : MsgData) : Bool :=
  d.title == none && d.body == none && d.token == none &&
  d.idempotency_key == none && d.user_id == none &&
  d.notification_id == none && d.retry_count == none && d.error == none

/-- The empty dict `{}`. -/
def emptyMsg : MsgData := {}

/-- A message body: either text that `json.loads` rejects, or a parsed dict. -/
inductive Body where
  | invalid : Body
  | dict : MsgData → Body
  deriving DecidableEq, Repr

/-! ## Payload validation

`PushNotificationPayload(**data)` (schemas.py): `title`, `body` and `token`
are required `str` fields; every other field consumed by the consumer is
optional.  Extra keys of the dict are ignored by the model. -/

structure PushNotificationPayload where
  title : String
  body : String
  token : String
  idempotency_key : Option String := none
  user_id : Option String := none
  deriving DecidableEq, Repr

/-- Pydantic validation of a parsed dict: succeeds iff the three required
fields are present. -/
def parsePayload (d : MsgData) : Option PushNotificationPayload :=
  match d.title, d.body, d.token with
  | some t, some b, some tok =>
      some { title := t, body := b, token := tok,
             idempotency_key := d.idempotency_key, user_id := d.user_id }
  | _, _, _ => none

/-! ## Notification records and the record store

`Notification` (models.py) restricted to the fields the consumer touches.
Note that `DatabaseManager.create_notification` never reads an
`error_message` key from its input and never sets `sent_at`. -/

structure NotifRecord where
  idempotency_key : Option String := none
  user_id : Option String := none
  device_token : Option String := none
  title : Option String := none
  body : Option String := none
  status : String := "pending"
  retry_count : Nat := 0
  error_message : Option String := none
  sent_at_set : Bool := false
  deriving DecidableEq, Repr

/-- The record store: an association list from record id to record. -/
abbrev Db := List (String × NotifRecord)

/-- Look a record up by id. -/
def dbLookup (db : Db) (id : String) : Option NotifRecord :=
  (db.find? (fun p => p.1 == id)).map (fun p => p.2)

/-- Look a record up by idempotency key
(`DatabaseManager.get_notification_by_idempotency_key`). -/
def dbLookupByKey (db : Db) (key : String) : Option NotifRecord :=
  (db.find? (fun p => p.2.idempotency_key == some key)).map (fun p => p.2)

/-- `DatabaseManager.create_notification`: the record built from the message
dict.  `error_message` and `sent_at` are never populated here. -/
def mkRecord (d : MsgData) (status : String) : NotifRecord :=
  { idempotency_key := d.idempotency_key
    user_id := d.user_id
    device_token := d.token
    title := d.title
    body := d.body
    status := status
    retry_count := d.retry_count.getD 0
    error_message := none
    sent_at_set := false }

/-- Insert a freshly created record. -/
def dbInsert (db : Db) (id : String) (r : NotifRecord) : Db :=
  db ++ [(id, r)]

/-- `DatabaseManager.update_notification_status`: set `status`; overwrite
`error_message` only when the argument is truthy; overwrite `retry_count`
only when the argument is not `None`; set `sent_at` when the new status is
`"sent"`.  A missing id is a no-op. -/
def dbUpdateStatus (db : Db) (id : String) (status : String)
    (err : Option String) (rc : Option Nat) : Db :=
  db.map (fun p =>
    if p.1 == id then
      (p.1,
        { p.2 with
          status := status
          error_message := if truthy err then err else p.2.error_message
          retry_count := rc.getD p.2.retry_count
          sent_at_set := p.2.sent_at_set || (status == "sent") })
    else p)

/-! ## Observable effects of one `process_message` run -/

inductive Effect where
  /-- A successful `create_notification` call (id, status, retry_count). -/
  | dbCreate : String → String → Nat → Effect
  /-- A successful `update_notification_status` call (id, status, retry_count
  argument). -/
  | dbUpdate : String → String → Option Nat → Effect
  /-- `send_push_notification` was invoked. -/
  | gatewayCall : Effect
  /-- `asyncio.sleep(secs)`. -/
  | sleep : Nat → Effect
  /-- `publish_message(routing_key, message)`. -/
  | publish : String → MsgData → Effect
  /-- `set_idempotency(key, ttl)`. -/
  | cacheSet : String → Nat → Effect
  /-- The message was acknowledged (normal exit of `message.process()`). -/
  | ack : Effect
  deriving DecidableEq, Repr

/-- The environment a single run executes against: the idempotency cache
contents, the gateway outcome, and fault-injection flags telling, for each
store/cache call site, whether that call raises. -/
structure Env where
  /-- `check_idempotency`: which keys exist in the cache. -/
  cacheHas : String → Bool
  /-- Outcome of `send_push_notification`: `Except.error e` models any
  exception (FCM error, timeout, circuit open), carrying `str(e)`. -/
  gateway : Except String Unit
  /-- `create_notification` succeeds. -/
  createOk : Bool
  /-- The `update_notification_status(..., "processing")` call succeeds. -/
  updProcOk : Bool
  /-- The `update_notification_status(..., "sent")` call succeeds. -/
  updSentOk : Bool
  /-- The `update_notification_status(..., "failed")` call in the
  invalid-token branch succeeds. -/
  updFailOk : Bool
  /-- The guarded `update_notification_status` inside the `except` handler
  succeeds. -/
  updExcOk : Bool
  /-- `set_idempotency` succeeds. -/
  setIdemOk : Bool
  /-- The id given to a record created during this run. -/
  freshId : String

/-- The `except Exception as e:` handler of `process_message`
(main.py lines 453-485), parameterised by the dict `d`, the current
`notification_id` value `nid` and the error text `e`. -/
def exceptRun (env : Env) (db : Db) (d : MsgData) (nid : Option String)
    (e : String) : List Effect × Db :=
  let rc : Nat := if d.isEmpty then 0 else d.retry_count.getD 0
  let upd : List Effect × Db :=
    if truthy nid then
      if env.updExcOk then
        let st := if rc < maxRetries then "retrying" else "failed"
        ([Effect.dbUpdate (nid.getD "") st (some rc)],
         dbUpdateStatus db (nid.getD "") st (some e) (some rc))
      else ([], db)
    else ([], db)
  if rc < maxRetries then
    let d' := if d.isEmpty then d
              else { d with retry_count := some (rc + 1), notification_id := nid }
    (upd.1 ++ [Effect.sleep (2 ^ rc * 5), Effect.publish retryQueue d', Effect.ack],
     upd.2)
  else
    (upd.1 ++ [Effect.publish deadLetterQueue
                 { d with error := some e, notification_id := nid }, Effect.ack],
     upd.2)

/-- `NotificationConsumer.process_message` (main.py lines 385-485): the full
per-message run, returning the effect trace and the final record store. -/
def processMessage (env : Env) (db : Db) (body : Body) : List Effect × Db :=
  match body with
  | Body.invalid =>
      -- json.loads raises; data is still {} and notification_id is None
      exceptRun env db emptyMsg none jsonError
  | Body.dict d =>
    let nid := d.notification_id
    match parsePayload d with
    | none =>
        -- PushNotificationPayload(**data) raises
        exceptRun env db d nid validationError
    | some p =>
      if truthy p.idempotency_key && env.cacheHas (p.idempotency_key.getD "") then
        -- duplicate notification: return (ack only)
        ([Effect.ack], db)
      else if p.token == "" || p.token.length < 10 then
        -- invalid device token branch
        if !truthy nid then
          if env.createOk then
            ([Effect.dbCreate env.freshId "failed" (d.retry_count.getD 0),
              Effect.publish deadLetterQueue
                { d with error := some invalidTokenMsg,
                         notification_id := some env.freshId },
              Effect.ack],
             dbInsert db env.freshId (mkRecord d "failed"))
          else
            -- create raised; swallowed, notification_id stays as it was
            ([Effect.publish deadLetterQueue
                { d with error := some invalidTokenMsg, notification_id := nid },
              Effect.ack],
             db)
        else
          if env.updFailOk then
            ([Effect.dbUpdate (nid.getD "") "failed" none,
              Effect.publish deadLetterQueue
                { d with error := some invalidTokenMsg, notification_id := nid },
              Effect.ack],
             dbUpdateStatus db (nid.getD "") "failed" (some invalidTokenMsg) none)
          else
            -- unguarded update raised: falls into the except handler
            exceptRun env db d nid dbError
      else
        -- record upsert (lines 430-441)
        let upsert : List Effect × Db × Option String × Bool :=
          if !truthy nid then
            if env.createOk then
              ([Effect.dbCreate env.freshId "processing" (d.retry_count.getD 0)],
               dbInsert db env.freshId (mkRecord d "processing"),
               some env.freshId, false)
            else
              -- guarded: swallowed
              ([], db, nid, false)
          else
            if env.updProcOk then
              ([Effect.dbUpdate (nid.getD "") "processing" none],
               dbUpdateStatus db (nid.getD "") "processing" none none,
               nid, false)
            else
              -- unguarded update raised
              ([], db, nid, true)
        if upsert.2.2.2 then
          exceptRun env db d nid dbError
        else
          let db0 := upsert.2.1
          let nid1 := upsert.2.2.1
          let pre := upsert.1 ++ [Effect.gatewayCall]
          match env.gateway with
          | Except.error e =>
              let ex := exceptRun env db0 d nid1 e
              (pre ++ ex.1, ex.2)
          | Except.ok _ =>
            if truthy nid1 then
              if env.updSentOk then
                let db1 := dbUpdateStatus db0 (nid1.getD "") "sent" none none
                let pre1 := pre ++ [Effect.dbUpdate (nid1.getD "") "sent" none]
                if truthy p.idempotency_key then
                  if env.setIdemOk then
                    (pre1 ++ [Effect.cacheSet (p.idempotency_key.getD "") idemTTL,
                              Effect.ack], db1)
                  else
                    let ex := exceptRun env db1 d nid1 cacheError
                    (pre1 ++ ex.1, ex.2)
                else
                  (pre1 ++ [Effect.ack], db1)
              else
                -- unguarded "sent" update raised
                let ex := exceptRun env db0 d nid1 dbError
                (pre ++ ex.1, ex.2)
            else
              if truthy p.idempotency_key then
                if env.setIdemOk then
                  (pre ++ [Effect.cacheSet (p.idempotency_key.getD "") idemTTL,
                           Effect.ack], db0)
                else
                  let ex := exceptRun env db0 d nid1 cacheError
                  (pre ++ ex.1, ex.2)
              else
                (pre ++ [Effect.ack], db0)

/-! ## Trace observations -/

/-- Routing keys of the publishes in a trace, in order. -/
def pubKeys : List Effect → List String
  | [] => []
  | Effect.publish k _ :: es => k :: pubKeys es
  | _ :: es => pubKeys es

/-- Statuses written to the record store by a trace, in order. -/
def statusWrites : List Effect → List String
  | [] => []
  | Effect.dbCreate _ s _ :: es => s :: statusWrites es
  | Effect.dbUpdate _ s _ :: es => s :: statusWrites es
  | _ :: es => statusWrites es

/-- Retry counts written to the record store by a trace. -/
def rcWrites : List Effect → List Nat
  | [] => []
  | Effect.dbCreate _ _ n :: es => n :: rcWrites es
  | Effect.dbUpdate _ _ (some n) :: es => n :: rcWrites es
  | _ :: es => rcWrites es

/-- The cache contents after a trace: key exists iff it existed before or a
`cacheSet` for it occurred. -/
def cacheAfter (cacheHas : String → Bool) (effs : List Effect) (k : String) : Bool :=
  cacheHas k || effs.any (fun e =>
    match e with
    | Effect.cacheSet k' _ => k' == k
    | _ => false)

/-- Retry counts carried by the messages a trace publishes to the retry
queue. -/
def retryRCs : List Effect → List Nat
  | [] => []
  | Effect.publish k m :: es =>
      if k == retryQueue then m.retry_count.getD 0 :: retryRCs es
      else retryRCs es
  | _ :: es => retryRCs es

/-- The incoming attempt count of a body: `data.get("retry_count", 0)`
with `0` for an unparseable body. -/
def rcOf : Body → Nat
  | Body.invalid => 0
  | Body.dict d => d.retry_count.getD 0

/-! ## CircuitBreaker (main.py lines 28-58) -/

inductive CBState where
  | Closed
  | Open
  | HalfOpen
  deriving DecidableEq, Repr

structure CircuitBreaker where
  failure_threshold : Nat := 5
  timeout : Nat := 60
  failures : Nat := 0
  last_failure_time : Option Nat := none
  state : CBState := CBState.Closed
  deriving DecidableEq, Repr

/-- `CircuitBreaker.__init__`. -/
def CircuitBreaker.init (threshold timeout : Nat) : CircuitBreaker :=
  { failure_threshold := threshold, timeout := timeout }

/-- Result of one `CircuitBreaker.call`: the call was rejected with the
breaker open (wrapped operation not invoked), or the operation was invoked
and succeeded / raised. -/
inductive CallResult where
  | rejected
  | success
  | failure
  deriving DecidableEq, Repr

/-- `CircuitBreaker.call` at wall-clock time `now`, where `opFails` tells
whether the wrapped operation raises when invoked. -/
def CircuitBreaker.call (cb : CircuitBreaker) (now : Nat) (opFails : Bool) :
    CircuitBreaker × CallResult :=
  let cb1 :=
    if cb.state = CBState.Open then
      if cb.timeout < now - cb.last_failure_time.getD 0 then
        { cb with state := CBState.HalfOpen }
      else cb
    else cb
  if cb1.state = CBState.Open then
    (cb1, CallResult.rejected)
  else if opFails then
    let f := cb1.failures + 1
    ({ cb1 with
        failures := f
        last_failure_time := some now
        state := if cb1.failure_threshold ≤ f then CBState.Open else cb1.state },
     CallResult.failure)
  else
    if cb1.state = CBState.HalfOpen then
      ({ cb1 with state := CBState.Closed, failures := 0 }, CallResult.success)
    else
      (cb1, CallResult.success)

/-- `n` consecutive failing calls, all at time `t`. -/
def failN (cb : CircuitBreaker) (t : Nat) : Nat → CircuitBreaker
  | 0 => cb
  | n + 1 => ((failN cb t n).call t true).1

/-- A successful call followed by a failing call, repeated `n` times, all at
time `t` (interleaves one closed-state success before every failure). -/
def altN (cb : CircuitBreaker) (t : Nat) : Nat → CircuitBreaker
  | 0 => cb
  | n + 1 => (((altN cb t n).call t false).1.call t true).1

/-! ## Concrete instances used to instantiate the theorems -/

/-- An all-healthy environment with an empty cache. -/
def envOk : Env :=
  { cacheHas := fun _ => false
    gateway := Except.ok ()
    createOk := true
    updProcOk := true
    updSentOk := true
    updFailOk := true
    updExcOk := true
    setIdemOk := true
    freshId := "N1" }

/-- A well-formed delivery request dict. -/
def msgValid : MsgData :=
  { title := some "Hello"
    body := some "Test notification"
    token := some "valid-token-123456789"
    idempotency_key := some "idem-key-1" }

/-- A dict whose `token` key is absent entirely. -/
def msgNoToken : MsgData :=
  { title := some "Hello", body := some "Test notification" }

/-- A well-formed dict that already carries a record id. -/
def msgWithNid : MsgData :=
  { msgValid with notification_id := some "N0" }

/-- The routing keys the except handler publishes to, as a function of the
dict alone. -/
def failKeys (d : MsgData) : List String :=
  if (if d.isEmpty then 0 else d.retry_count.getD 0) < maxRetries
  then [retryQueue] else [deadLetterQueue]

/-! ## Helper lemmas on traces -/

theorem pubKeys_append (a b : List Effect) :
    pubKeys (a ++ b) = pubKeys a ++ pubKeys b := by
  induction a with
  | nil => rfl
  | cons x xs ih => cases x <;> simp [pubKeys, ih]

theorem statusWrites_append (a b : List Effect) :
    statusWrites (a ++ b) = statusWrites a ++ statusWrites b := by
  induction a with
  | nil => rfl
  | cons x xs ih =>
    cases x with
    | dbUpdate i s n => cases n <;> simp [statusWrites, ih]
    | _ => simp [statusWrites, ih]

theorem rcWrites_append (a b : List Effect) :
    rcWrites (a ++ b) = rcWrites a ++ rcWrites b := by
  induction a with
  | nil => rfl
  | cons x xs ih =>
    cases x with
    | dbUpdate i s n => cases n <;> simp [rcWrites, ih]
    | _ => simp [rcWrites, ih]

theorem parsePayload_not_empty {d : MsgData} {p : PushNotificationPayload}
    (h : parsePayload d = some p) : d.isEmpty = false := by
  unfold parsePayload at h
  cases ht : d.title with
  | none => rw [ht] at h; simp at h
  | some t => simp [MsgData.isEmpty, ht]

theorem parsePayload_key {d : MsgData} {p : PushNotificationPayload}
    (h : parsePayload d = some p) : p.idempotency_key = d.idempotency_key := by
  unfold parsePayload at h
  cases ht : d.title with
  | none => rw [ht] at h; simp at h
  | some t =>
    cases hb : d.body with
    | none => rw [ht, hb] at h; simp at h
    | some b =>
      cases htok : d.token with
      | none => rw [ht, hb, htok] at h; simp at h
      | some tok =>
        rw [ht, hb, htok] at h
        simp at h
        subst h
        rfl

/-- The except handler's trace: an optional status write, then (below the
retry cap) a backoff sleep and a retry republish, else a dead-letter
publish, then the ack. -/
theorem exceptRun_eq (env : Env) (db : Db) (d : MsgData) (nid : Option String)
    (e : String) :
    (exceptRun env db d nid e) =
      (let rc := if d.isEmpty then 0 else d.retry_count.getD 0
       let st := if rc < maxRetries then "retrying" else "failed"
       let upd : List Effect × Db :=
         if truthy nid && env.updExcOk then
           ([Effect.dbUpdate (nid.getD "") st (some rc)],
            dbUpdateStatus db (nid.getD "") st (some e) (some rc))
         else ([], db)
       if rc < maxRetries then
         (upd.1 ++ [Effect.sleep (2 ^ rc * 5),
            Effect.publish retryQueue
              (if d.isEmpty then d
               else { d with retry_count := some (rc + 1), notification_id := nid }),
            Effect.ack], upd.2)
       else
         (upd.1 ++ [Effect.publish deadLetterQueue
              { d with error := some e, notification_id := nid },
            Effect.ack], upd.2)) := by
  unfold exceptRun
  by_cases h1 : truthy nid <;> by_cases h2 : env.updExcOk <;> simp [h1, h2]

theorem pubKeys_exceptRun (env : Env) (db : Db) (d : MsgData)
    (nid : Option String) (e : String) :
    pubKeys (exceptRun env db d nid e).1 = failKeys d := by
  rw [exceptRun_eq]
  unfold failKeys
  by_cases h1 : truthy nid && env.updExcOk <;>
    by_cases h3 : (if d.isEmpty then 0 else d.retry_count.getD 0) < maxRetries <;>
      simp [h1, h3, pubKeys_append, pubKeys]

theorem ack_exceptRun (env : Env) (db : Db) (d : MsgData) (nid : Option String)
    (e : String) : Effect.ack ∈ (exceptRun env db d nid e).1 := by
  rw [exceptRun_eq]
  by_cases h1 : truthy nid && env.updExcOk <;>
    by_cases h3 : (if d.isEmpty then 0 else d.retry_count.getD 0) < maxRetries <;>
      simp [h1, h3]

theorem statusWrites_exceptRun (env : Env) (db : Db) (d : MsgData)
    (nid : Option String) (e : String) :
    statusWrites (exceptRun env db d nid e).1 =
      (if truthy nid && env.updExcOk then
        [if (if d.isEmpty then 0 else d.retry_count.getD 0) < maxRetries
         then "retrying" else "failed"]
       else []) := by
  rw [exceptRun_eq]
  by_cases h1 : truthy nid && env.updExcOk <;>
    by_cases h3 : (if d.isEmpty then 0 else d.retry_count.getD 0) < maxRetries <;>
      simp [h1, h3, statusWrites_append, statusWrites]

theorem rcWrites_exceptRun (env : Env) (db : Db) (d : MsgData)
    (nid : Option String) (e : String) :
    rcWrites (exceptRun env db d nid e).1 =
      (if truthy nid && env.updExcOk then
        [if d.isEmpty then 0 else d.retry_count.getD 0]
       else []) := by
  rw [exceptRun_eq]
  by_cases h1 : truthy nid && env.updExcOk <;>
    by_cases h3 : (if d.isEmpty then 0 else d.retry_count.getD 0) < maxRetries <;>
      simp [h1, h3, rcWrites_append, rcWrites]

theorem isEmpty_retry_count {d : MsgData} (h : d.isEmpty = true) :
    d.retry_count = none := by
  unfold MsgData.isEmpty at h
  simp [Bool.and_eq_true] at h
  exact h.1.2

theorem isEmpty_notification_id {d : MsgData} (h : d.isEmpty = true) :
    d.notification_id = none := by
  unfold MsgData.isEmpty at h
  simp [Bool.and_eq_true] at h
  exact h.1.1.2


theorem find?_map_keyPreserving (u : String × NotifRecord → String × NotifRecord)
    (hu : ∀ p, (u p).1 = p.1) (l : Db) (id : String) :
    (l.map u).find? (fun p => p.1 == id) = (l.find? (fun p => p.1 == id)).map u := by
  induction l with
  | nil => rfl
  | cons hd tl ih =>
    simp only [List.map_cons, List.find?]
    rw [hu hd]
    cases hd.1 == id
    · simpa using ih
    · simp

theorem dbLookup_updateStatus_self (db : Db) (id st : String)
    (err : Option String) (rc : Option Nat) :
    dbLookup (dbUpdateStatus db id st err rc) id =
      (dbLookup db id).map (fun r =>
        { r with
          status := st
          error_message := if truthy err then err else r.error_message
          retry_count := rc.getD r.retry_count
          sent_at_set := r.sent_at_set || (st == "sent") }) := by
  unfold dbLookup dbUpdateStatus
  rw [find?_map_keyPreserving _ (by intro p; by_cases h : p.1 == id <;> simp [h])]
  cases hf : db.find? (fun p => p.1 == id) with
  | none => rfl
  | some q =>
    have hq : q.1 = id := by simpa using List.find?_some hf
    simp [hq]

theorem dbLookup_insert_fresh (db : Db) (id : String) (r : NotifRecord)
    (h : dbLookup db id = none) : dbLookup (dbInsert db id r) id = some r := by
  unfold dbLookup dbInsert
  rw [List.find?_append]
  have hf : db.find? (fun p => p.1 == id) = none := by
    cases hf : db.find? (fun p => p.1 == id) with
    | none => rfl
    | some x => unfold dbLookup at h; rw [hf] at h; simp at h
  rw [hf]
  simp [List.find?_cons]

/-! ## Claim theorems -/

/-- Claim C4: for every dequeued payload that validates and carries an
idempotency key already present in the guard, the consumer acknowledges and
exits with no other effect — the record store is untouched, the gateway is
never called, and nothing is published to any queue. -/
theorem C4_duplicate_skip (env : Env) (db : Db) (d : MsgData)
    (p : PushNotificationPayload)
    (hp : parsePayload d = some p)
    (hkey : truthy p.idempotency_key = true)
    (hhit : env.cacheHas (p.idempotency_key.getD "") = true) :
    processMessage env db (Body.dict d) = ([Effect.ack], db) := by
  simp only [processMessage, hp, hkey, hhit]
  simp

/-- Witness for C4 at a concrete duplicate message. -/
theorem C4_duplicate_skip_witness :
    processMessage { envOk with cacheHas := fun k => k == "idem-key-1" } []
        (Body.dict msgValid) = ([Effect.ack], []) :=
  C4_duplicate_skip _ _ _
    { title := "Hello", body := "Test notification",
      token := "valid-token-123456789", idempotency_key := some "idem-key-1" }
    (by decide) (by decide) (by decide)

/-- Claim C6 (code evaluated at the failing input): a message whose body is
not valid JSON is republished to the retry queue as the empty dict, and the
empty dict itself is republished identically, so such a message loops through
the retry queue forever with `retry_count` never incremented and never
reaches the dead-letter queue. -/
theorem C6_unparseable_loops_forever (env : Env) (db : Db) :
    processMessage env db Body.invalid =
      ([Effect.sleep 5, Effect.publish retryQueue emptyMsg, Effect.ack], db) ∧
    processMessage env db (Body.dict emptyMsg) =
      ([Effect.sleep 5, Effect.publish retryQueue emptyMsg, Effect.ack], db) := by
  constructor <;> rfl

/-- Claim C10: when record creation fails for a message with no record id,
the consumer still calls the gateway; on success no record is written, yet
the idempotency key is marked done and the message acknowledged, so polling
by idempotency key finds no record of the delivered notification. -/
theorem C10_create_failure_silent_success (env : Env) (db : Db) (d : MsgData)
    (p : PushNotificationPayload)
    (hp : parsePayload d = some p)
    (hkey : truthy p.idempotency_key = true)
    (hmiss : env.cacheHas (p.idempotency_key.getD "") = false)
    (htok : (p.token == "" || p.token.length < 10) = false)
    (hnid : truthy d.notification_id = false)
    (hcreate : env.createOk = false)
    (hgw : env.gateway = Except.ok ())
    (hset : env.setIdemOk = true) :
    processMessage env db (Body.dict d) =
      ([Effect.gatewayCall,
        Effect.cacheSet (p.idempotency_key.getD "") idemTTL, Effect.ack], db) ∧
    (dbLookupByKey db (p.idempotency_key.getD "") = none →
      dbLookupByKey (processMessage env db (Body.dict d)).2
        (p.idempotency_key.getD "") = none) := by
  have hmain : processMessage env db (Body.dict d) =
      ([Effect.gatewayCall,
        Effect.cacheSet (p.idempotency_key.getD "") idemTTL, Effect.ack], db) := by
    simp only [processMessage, hp]
    simp [hkey, hmiss, htok, hnid, hcreate, hgw, hset]
  exact ⟨hmain, by rw [hmain]; exact id⟩

/-- Witness for C10: store down at creation, delivery succeeds anyway, no
record exists afterwards. -/
theorem C10_create_failure_silent_success_witness :
    processMessage { envOk with createOk := false } [] (Body.dict msgValid) =
      ([Effect.gatewayCall, Effect.cacheSet "idem-key-1" idemTTL, Effect.ack],
       []) ∧
    dbLookupByKey
      (processMessage { envOk with createOk := false } []
        (Body.dict msgValid)).2 "idem-key-1" = none := by
  have h := C10_create_failure_silent_success { envOk with createOk := false }
    [] msgValid
    { title := "Hello", body := "Test notification",
      token := "valid-token-123456789", idempotency_key := some "idem-key-1" }
    (by decide) (by decide) (by decide) (by decide) (by decide) (by decide)
    rfl (by decide)
  exact ⟨h.1, h.2 (by decide)⟩

/-- Claim C2 (amended): for every dequeued payload that parses successfully
and whose recipient token is present but shorter than 10 characters, with
the record store available, the failure is non-retryable: exactly one store
write marks the record `failed`, exactly one dead-letter publish occurs
carrying the reason `Invalid device token`, the message is acknowledged, the
gateway is never called, and the retry path is never taken. -/
theorem C2_short_token_dead_letter (env : Env) (db : Db) (d : MsgData)
    (p : PushNotificationPayload)
    (hp : parsePayload d = some p)
    (hidem : (truthy p.idempotency_key &&
      env.cacheHas (p.idempotency_key.getD "")) = false)
    (htok : (p.token == "" || p.token.length < 10) = true)
    (hcr : env.createOk = true)
    (hupdf : env.updFailOk = true) :
    pubKeys (processMessage env db (Body.dict d)).1 = [deadLetterQueue] ∧
    statusWrites (processMessage env db (Body.dict d)).1 = ["failed"] ∧
    Effect.gatewayCall ∉ (processMessage env db (Body.dict d)).1 ∧
    Effect.ack ∈ (processMessage env db (Body.dict d)).1 ∧
    (∃ m, Effect.publish deadLetterQueue m ∈ (processMessage env db (Body.dict d)).1 ∧
      m.error = some invalidTokenMsg) := by
  by_cases hnid : truthy d.notification_id
  · simp only [processMessage, hp]
    simp [hidem, htok, hnid, hupdf, pubKeys, statusWrites]
  · simp only [processMessage, hp]
    simp [hidem, htok, hnid, hcr, pubKeys, statusWrites]

/-- Witness for C2 (amended) at a concrete short-token payload. -/
theorem C2_short_token_dead_letter_witness :
    pubKeys (processMessage envOk []
      (Body.dict { msgValid with token := some "short" })).1 = [deadLetterQueue] ∧
    statusWrites (processMessage envOk []
      (Body.dict { msgValid with token := some "short" })).1 = ["failed"] := by
  have h := C2_short_token_dead_letter envOk [] { msgValid with token := some "short" }
    { title := "Hello", body := "Test notification", token := "short",
      idempotency_key := some "idem-key-1" }
    (by decide) (by decide) (by decide) (by decide) (by decide)
  exact ⟨h.1, h.2.1⟩

/-- Counterexample to C2 as stated: this payload's recipient token is
missing entirely, yet it is not treated as a non-retryable validation
failure — pydantic validation raises first, so this message (attempt count
0) is republished to the retry queue, no dead-letter publish happens and no
record is marked failed. -/
theorem C2_counterexample :
    processMessage envOk [] (Body.dict msgNoToken) =
      ([Effect.sleep 5,
        Effect.publish retryQueue { msgNoToken with retry_count := some 1 },
        Effect.ack], []) ∧
    pubKeys (processMessage envOk [] (Body.dict msgNoToken)).1 = [retryQueue] ∧
    statusWrites (processMessage envOk [] (Body.dict msgNoToken)).1 = [] ∧
    Effect.gatewayCall ∉ (processMessage envOk [] (Body.dict msgNoToken)).1 := by
  refine ⟨rfl, rfl, rfl, by decide⟩

/-- Claim C5: for every dequeued message whose gateway call succeeds (store
and cache then available), the notification record ends in status `sent`
with `sent_at` set, and when an idempotency key is present it is marked done
with the 24h TTL so a subsequent guard check for that key reports it as
existing. -/
theorem C5_success_marks_sent (env : Env) (db : Db) (d : MsgData)
    (p : PushNotificationPayload)
    (hp : parsePayload d = some p)
    (hidem : (truthy p.idempotency_key &&
      env.cacheHas (p.idempotency_key.getD "")) = false)
    (htok : (p.token == "" || p.token.length < 10) = false)
    (hgw : env.gateway = Except.ok ())
    (hsent : env.updSentOk = true)
    (hset : env.setIdemOk = true)
    (hfresh : truthy (some env.freshId) = true)
    (hcre : truthy d.notification_id = false →
      env.createOk = true ∧ dbLookup db env.freshId = none)
    (hupd : truthy d.notification_id = true →
      env.updProcOk = true ∧ (dbLookup db (d.notification_id.getD "")).isSome = true) :
    (∃ r, dbLookup (processMessage env db (Body.dict d)).2
        ((if truthy d.notification_id then d.notification_id
          else some env.freshId).getD "") = some r ∧
      r.status = "sent" ∧ r.sent_at_set = true) ∧
    (truthy p.idempotency_key = true →
      Effect.cacheSet (p.idempotency_key.getD "") idemTTL ∈
        (processMessage env db (Body.dict d)).1 ∧
      cacheAfter env.cacheHas (processMessage env db (Body.dict d)).1
        (p.idempotency_key.getD "") = true) := by
  by_cases hnid : truthy d.notification_id
  · obtain ⟨hproc, hrec⟩ := hupd hnid
    obtain ⟨r0, hr0⟩ := Option.isSome_iff_exists.mp hrec
    by_cases hkeyt : truthy p.idempotency_key
    · have hch : env.cacheHas (p.idempotency_key.getD "") = false := by
        rw [hkeyt] at hidem; simpa using hidem
      simp only [processMessage, hp]
      simp [hch, htok, hnid, hproc, hgw, hsent, hset, hkeyt,
        dbLookup_updateStatus_self, hr0, cacheAfter]
    · have hkf : truthy p.idempotency_key = false := by simpa using hkeyt
      simp only [processMessage, hp]
      simp [hkf, htok, hnid, hproc, hgw, hsent,
        dbLookup_updateStatus_self, hr0]
  · have hnf : truthy d.notification_id = false := by simpa using hnid
    obtain ⟨hcr, hfr⟩ := hcre hnf
    have hins : dbLookup (dbInsert db env.freshId (mkRecord d "processing"))
        env.freshId = some (mkRecord d "processing") :=
      dbLookup_insert_fresh db env.freshId _ hfr
    by_cases hkeyt : truthy p.idempotency_key
    · have hch : env.cacheHas (p.idempotency_key.getD "") = false := by
        rw [hkeyt] at hidem; simpa using hidem
      simp only [processMessage, hp]
      simp [hch, htok, hnf, hcr, hgw, hsent, hset, hkeyt, hfresh,
        dbLookup_updateStatus_self, hins, cacheAfter]
    · have hkf : truthy p.idempotency_key = false := by simpa using hkeyt
      simp only [processMessage, hp]
      simp [hkf, htok, hnf, hcr, hgw, hsent, hfresh,
        dbLookup_updateStatus_self, hins]

/-- Witness for C5: the concrete happy-path run from the repository's own
consumer test (create, deliver, mark sent, set idempotency key). -/
theorem C5_success_marks_sent_witness :
    (∃ r, dbLookup (processMessage envOk [] (Body.dict msgValid)).2 "N1" = some r ∧
      r.status = "sent" ∧ r.sent_at_set = true) ∧
    Effect.cacheSet "idem-key-1" idemTTL ∈
      (processMessage envOk [] (Body.dict msgValid)).1 ∧
    cacheAfter envOk.cacheHas (processMessage envOk [] (Body.dict msgValid)).1
      "idem-key-1" = true := by
  have h := C5_success_marks_sent envOk [] msgValid
    { title := "Hello", body := "Test notification",
      token := "valid-token-123456789", idempotency_key := some "idem-key-1" }
    (by decide) (by decide) (by decide) rfl (by decide) (by decide) (by decide)
    (fun hn => ⟨by decide, by decide⟩) (fun hn => by simp [msgValid, truthy] at hn)
  exact ⟨h.1, (h.2 (by decide)).1, (h.2 (by decide)).2⟩

/-- Claim C1: for every dequeued message whose gateway delivery attempt
fails, if the attempt count is below `maxRetries` (3) the consumer performs
exactly one republish, to the retry routing key, carrying the attempt count
incremented by 1 and the known record id, after a backoff sleep of exactly
`2 ^ attempt * 5` seconds; if the attempt count is `maxRetries` or more, it
performs exactly one publish, to the dead-letter routing key, carrying the
error text and record id, and no retry republish occurs. -/
theorem C1_gateway_failure_routing (env : Env) (db : Db) (d : MsgData)
    (p : PushNotificationPayload) (e : String)
    (hp : parsePayload d = some p)
    (hidem : (truthy p.idempotency_key &&
      env.cacheHas (p.idempotency_key.getD "")) = false)
    (htok : (p.token == "" || p.token.length < 10) = false)
    (hupd : truthy d.notification_id = true → env.updProcOk = true)
    (hgw : env.gateway = Except.error e) :
    (d.retry_count.getD 0 < maxRetries →
      pubKeys (processMessage env db (Body.dict d)).1 = [retryQueue] ∧
      ∃ pre, (processMessage env db (Body.dict d)).1 =
        pre ++ [Effect.sleep (2 ^ d.retry_count.getD 0 * 5),
          Effect.publish retryQueue
            { d with retry_count := some (d.retry_count.getD 0 + 1),
                     notification_id :=
                       if truthy d.notification_id then d.notification_id
                       else if env.createOk then some env.freshId
                       else d.notification_id },
          Effect.ack]) ∧
    (maxRetries ≤ d.retry_count.getD 0 →
      pubKeys (processMessage env db (Body.dict d)).1 = [deadLetterQueue] ∧
      ∃ pre, (processMessage env db (Body.dict d)).1 =
        pre ++ [Effect.publish deadLetterQueue
            { d with error := some e,
                     notification_id :=
                       if truthy d.notification_id then d.notification_id
                       else if env.createOk then some env.freshId
                       else d.notification_id },
          Effect.ack]) := by
  have hne : d.isEmpty = false := parsePayload_not_empty hp
  have key : ∀ (db0 : Db) (pre0 : List Effect) (nid1 : Option String),
      pubKeys pre0 = [] →
      (d.retry_count.getD 0 < maxRetries →
        pubKeys (pre0 ++ (exceptRun env db0 d nid1 e).1) = [retryQueue] ∧
        ∃ pre, pre0 ++ (exceptRun env db0 d nid1 e).1 =
          pre ++ [Effect.sleep (2 ^ d.retry_count.getD 0 * 5),
            Effect.publish retryQueue
              { d with retry_count := some (d.retry_count.getD 0 + 1),
                       notification_id := nid1 },
            Effect.ack]) ∧
      (maxRetries ≤ d.retry_count.getD 0 →
        pubKeys (pre0 ++ (exceptRun env db0 d nid1 e).1) = [deadLetterQueue] ∧
        ∃ pre, pre0 ++ (exceptRun env db0 d nid1 e).1 =
          pre ++ [Effect.publish deadLetterQueue
              { d with error := some e, notification_id := nid1 },
            Effect.ack]) := by
    intro db0 pre0 nid1 hpre0
    rw [exceptRun_eq]
    by_cases hu : truthy nid1 && env.updExcOk
    · by_cases hrc : d.retry_count.getD 0 < maxRetries
      · refine ⟨fun _ => ⟨?_, ?_⟩, fun h => absurd hrc (by omega)⟩
        · simp [hne, hu, hrc, pubKeys_append, hpre0, pubKeys]
        · refine ⟨pre0 ++ [Effect.dbUpdate (nid1.getD "") "retrying"
            (some (d.retry_count.getD 0))], ?_⟩
          simp [hne, hu, hrc]
      · refine ⟨fun h => absurd h hrc, fun _ => ⟨?_, ?_⟩⟩
        · simp [hne, hu, hrc, pubKeys_append, hpre0, pubKeys]
        · refine ⟨pre0 ++ [Effect.dbUpdate (nid1.getD "") "failed"
            (some (d.retry_count.getD 0))], ?_⟩
          simp [hne, hu, hrc]
    · by_cases hrc : d.retry_count.getD 0 < maxRetries
      · refine ⟨fun _ => ⟨?_, ?_⟩, fun h => absurd hrc (by omega)⟩
        · simp [hne, hu, hrc, pubKeys_append, hpre0, pubKeys]
        · exact ⟨pre0, by simp [hne, hu, hrc]⟩
      · refine ⟨fun h => absurd h hrc, fun _ => ⟨?_, ?_⟩⟩
        · simp [hne, hu, hrc, pubKeys_append, hpre0, pubKeys]
        · exact ⟨pre0, by simp [hne, hu, hrc]⟩
  by_cases hnid : truthy d.notification_id
  · have hproc := hupd hnid
    simp only [processMessage, hp]
    simp only [hidem, htok, hnid, hproc, hgw]
    simp only [Bool.false_eq_true, if_false, Bool.or_self, not_false_eq_true,
      Bool.not_true, if_true]
    simpa [hnid] using
      key (dbUpdateStatus db (d.notification_id.getD "") "processing" none none)
        [Effect.dbUpdate (d.notification_id.getD "") "processing" none,
         Effect.gatewayCall]
        d.notification_id (by simp [pubKeys])
  · have hnf : truthy d.notification_id = false := by simpa using hnid
    by_cases hcr : env.createOk
    · simp only [processMessage, hp]
      simp only [hidem, htok, hnf, hcr, hgw]
      simp only [Bool.false_eq_true, if_false, Bool.not_false, if_true]
      simpa [hnf, hcr] using
        key (dbInsert db env.freshId (mkRecord d "processing"))
          [Effect.dbCreate env.freshId "processing" (d.retry_count.getD 0),
           Effect.gatewayCall]
          (some env.freshId) (by simp [pubKeys])
    · have hcf : env.createOk = false := by simpa using hcr
      simp only [processMessage, hp]
      simp only [hidem, htok, hnf, hcf, hgw]
      simp only [Bool.false_eq_true, if_false, Bool.not_false, if_true]
      simpa [hnf, hcf] using
        key db [Effect.gatewayCall] d.notification_id (by simp [pubKeys])

/-- Witness for C1: a failing gateway at attempt 0 republishes exactly once
to the retry queue; at attempt 3 it publishes exactly once to the
dead-letter queue. -/
theorem C1_gateway_failure_routing_witness :
    pubKeys (processMessage { envOk with gateway := Except.error "FCM Error: boom" }
      [] (Body.dict msgValid)).1 = [retryQueue] ∧
    pubKeys (processMessage { envOk with gateway := Except.error "FCM Error: boom" }
      [] (Body.dict { msgValid with retry_count := some 3 })).1 =
      [deadLetterQueue] := by
  have h1 := C1_gateway_failure_routing
    { envOk with gateway := Except.error "FCM Error: boom" } [] msgValid
    { title := "Hello", body := "Test notification",
      token := "valid-token-123456789", idempotency_key := some "idem-key-1" }
    "FCM Error: boom" (by decide) (by decide) (by decide) (fun _ => rfl) rfl
  have h2 := C1_gateway_failure_routing
    { envOk with gateway := Except.error "FCM Error: boom" } []
    { msgValid with retry_count := some 3 }
    { title := "Hello", body := "Test notification",
      token := "valid-token-123456789", idempotency_key := some "idem-key-1" }
    "FCM Error: boom" (by decide) (by decide) (by decide) (fun _ => rfl) rfl
  exact ⟨(h1.1 (by decide)).1, (h2.2 (by decide)).1⟩

/-! ## Circuit-breaker lemmas -/

theorem failN_lt (th tmo t : Nat) (j : Nat) (hj : j < th) :
    failN (CircuitBreaker.init th tmo) t j =
      { failure_threshold := th, timeout := tmo, failures := j,
        last_failure_time := if j = 0 then none else some t,
        state := CBState.Closed } := by
  induction j with
  | zero => rfl
  | succ n ih =>
    have hn : n < th := Nat.lt_of_succ_lt hj
    rw [failN, ih hn]
    unfold CircuitBreaker.call
    have : ¬ th ≤ n + 1 := by omega
    simp [this]

theorem failN_threshold (th tmo t : Nat) (h : 1 ≤ th) :
    failN (CircuitBreaker.init th tmo) t th =
      { failure_threshold := th, timeout := tmo, failures := th,
        last_failure_time := some t, state := CBState.Open } := by
  obtain ⟨n, rfl⟩ : ∃ n, th = n + 1 := ⟨th - 1, by omega⟩
  rw [failN, failN_lt (n + 1) tmo t n (by omega)]
  unfold CircuitBreaker.call
  simp

/-- Claim C3: after `failure_threshold` consecutive failing calls the
breaker is OPEN; while OPEN and before the timeout a call is rejected
without invoking the operation and changes nothing; once more than
`timeout` seconds have passed since the last failure the next call runs the
operation (passing through HALF_OPEN): on success the breaker is CLOSED
with `failures = 0`, on failure it is OPEN again with `last_failure_time`
updated. -/
theorem C3_circuit_breaker :
    (∀ th tmo t : Nat, 1 ≤ th →
      (failN (CircuitBreaker.init th tmo) t th).state = CBState.Open ∧
      (failN (CircuitBreaker.init th tmo) t th).failures = th) ∧
    (∀ (cb : CircuitBreaker) (now : Nat) (opFails : Bool),
      cb.state = CBState.Open →
      now - cb.last_failure_time.getD 0 ≤ cb.timeout →
      cb.call now opFails = (cb, CallResult.rejected)) ∧
    (∀ (cb : CircuitBreaker) (now : Nat),
      cb.state = CBState.Open →
      cb.timeout < now - cb.last_failure_time.getD 0 →
      cb.call now false =
        ({ cb with state := CBState.Closed, failures := 0 },
         CallResult.success)) ∧
    (∀ (cb : CircuitBreaker) (now : Nat),
      cb.state = CBState.Open →
      cb.timeout < now - cb.last_failure_time.getD 0 →
      cb.failure_threshold ≤ cb.failures →
      cb.call now true =
        ({ cb with failures := cb.failures + 1,
                   last_failure_time := some now, state := CBState.Open },
         CallResult.failure)) := by
  refine ⟨?_, ?_, ?_, ?_⟩
  · intro th tmo t h
    rw [failN_threshold th tmo t h]
    exact ⟨rfl, rfl⟩
  · intro cb now opFails hst hto
    unfold CircuitBreaker.call
    simp [hst, Nat.not_lt.mpr hto]
  · intro cb now hst hto
    unfold CircuitBreaker.call
    simp [hst, hto]
  · intro cb now hst hto hf
    unfold CircuitBreaker.call
    have : cb.failure_threshold ≤ cb.failures + 1 := by omega
    simp [hst, hto, this]

/-- Witness for C3 at `failure_threshold = 2`, `timeout = 60`. -/
theorem C3_circuit_breaker_witness :
    (failN (CircuitBreaker.init 2 60) 0 2).state = CBState.Open ∧
    CircuitBreaker.call
      { failure_threshold := 2, timeout := 60, failures := 2,
        last_failure_time := some 0, state := CBState.Open } 30 true =
      ({ failure_threshold := 2, timeout := 60, failures := 2,
         last_failure_time := some 0, state := CBState.Open },
       CallResult.rejected) ∧
    CircuitBreaker.call
      { failure_threshold := 2, timeout := 60, failures := 2,
        last_failure_time := some 0, state := CBState.Open } 100 false =
      ({ failure_threshold := 2, timeout := 60, failures := 0,
         last_failure_time := some 0, state := CBState.Closed },
       CallResult.success) ∧
    CircuitBreaker.call
      { failure_threshold := 2, timeout := 60, failures := 2,
        last_failure_time := some 0, state := CBState.Open } 100 true =
      ({ failure_threshold := 2, timeout := 60, failures := 3,
         last_failure_time := some 100, state := CBState.Open },
       CallResult.failure) := by
  refine ⟨(C3_circuit_breaker.1 2 60 0 (by decide)).1,
    C3_circuit_breaker.2.1 _ 30 true rfl (by decide),
    C3_circuit_breaker.2.2.1 _ 100 rfl (by decide),
    C3_circuit_breaker.2.2.2 _ 100 rfl (by decide) (by decide)⟩

theorem altN_lt (th tmo t : Nat) (j : Nat) (hj : j < th) :
    altN (CircuitBreaker.init th tmo) t j =
      { failure_threshold := th, timeout := tmo, failures := j,
        last_failure_time := if j = 0 then none else some t,
        state := CBState.Closed } := by
  induction j with
  | zero => rfl
  | succ n ih =>
    have hn : n < th := Nat.lt_of_succ_lt hj
    rw [altN, ih hn]
    unfold CircuitBreaker.call
    have h2 : ¬ th ≤ n + 1 := by omega
    simp [h2]

theorem altN_threshold (th tmo t : Nat) (h : 1 ≤ th) :
    altN (CircuitBreaker.init th tmo) t th =
      { failure_threshold := th, timeout := tmo, failures := th,
        last_failure_time := some t, state := CBState.Open } := by
  obtain ⟨n, rfl⟩ : ∃ n, th = n + 1 := ⟨th - 1, by omega⟩
  rw [altN, altN_lt (n + 1) tmo t n (by omega)]
  unfold CircuitBreaker.call
  simp

/-- Claim C9: in the CLOSED state a successful call leaves the breaker —
including `failures` — completely unchanged; `failures` can only decrease
through a success executing outside the CLOSED state (i.e. a HALF_OPEN
success); hence `failure_threshold` failures open the breaker even when a
closed-state success is interleaved before every failure. -/
theorem C9_failures_survive_closed_success :
    (∀ (cb : CircuitBreaker) (now : Nat), cb.state = CBState.Closed →
      cb.call now false = (cb, CallResult.success)) ∧
    (∀ (cb : CircuitBreaker) (now : Nat) (b : Bool),
      (cb.call now b).1.failures < cb.failures →
      b = false ∧ cb.state ≠ CBState.Closed) ∧
    (∀ th tmo t : Nat, 1 ≤ th →
      (altN (CircuitBreaker.init th tmo) t th).state = CBState.Open ∧
      (altN (CircuitBreaker.init th tmo) t th).failures = th) := by
  refine ⟨?_, ?_, ?_⟩
  · intro cb now hst
    unfold CircuitBreaker.call
    simp [hst]
  · intro cb now b h
    by_cases hb : b = true
    · subst hb
      exfalso
      unfold CircuitBreaker.call at h
      by_cases hst : cb.state = CBState.Open <;>
        by_cases hto : cb.timeout < now - cb.last_failure_time.getD 0 <;>
          simp [hst, hto] at h
    · have hb' : b = false := by simpa using hb
      subst hb'
      refine ⟨rfl, fun hcl => ?_⟩
      unfold CircuitBreaker.call at h
      simp [hcl] at h
  · intro th tmo t h
    rw [altN_threshold th tmo t h]
    exact ⟨rfl, rfl⟩

/-- Witness for C9: success-failure pairs from a fresh breaker with
threshold 2 end OPEN with `failures = 2`, and a CLOSED success is the
identity. -/
theorem C9_failures_survive_closed_success_witness :
    CircuitBreaker.call (CircuitBreaker.init 2 60) 0 false =
      (CircuitBreaker.init 2 60, CallResult.success) ∧
    (altN (CircuitBreaker.init 2 60) 0 2).state = CBState.Open ∧
    (altN (CircuitBreaker.init 2 60) 0 2).failures = 2 := by
  refine ⟨C9_failures_survive_closed_success.1 _ 0 rfl,
    (C9_failures_survive_closed_success.2.2 2 60 0 (by decide)).1,
    (C9_failures_survive_closed_success.2.2 2 60 0 (by decide)).2⟩

/-- The routing decision of `process_message`, read off the code: which
queue(s) a run publishes to, as a function of the branch conditions. -/
theorem pubKeys_processMessage (env : Env) (db : Db) (b : Body) :
    pubKeys (processMessage env db b).1 =
      (match b with
      | Body.invalid => [retryQueue]
      | Body.dict d =>
        match parsePayload d with
        | none => failKeys d
        | some p =>
          if truthy p.idempotency_key && env.cacheHas (p.idempotency_key.getD "")
          then []
          else if p.token == "" || p.token.length < 10 then
            if truthy d.notification_id && !env.updFailOk then failKeys d
            else [deadLetterQueue]
          else if truthy d.notification_id && !env.updProcOk then failKeys d
          else
            match env.gateway with
            | Except.error _ => failKeys d
            | Except.ok _ =>
              if (truthy d.notification_id ||
                  (env.createOk && truthy (some env.freshId))) &&
                 !env.updSentOk then failKeys d
              else if truthy p.idempotency_key && !env.setIdemOk then failKeys d
              else []) := by
  rcases b with _ | d
  · simp [processMessage, pubKeys_exceptRun, failKeys, emptyMsg,
      MsgData.isEmpty, maxRetries]
  · rcases hp : parsePayload d with _ | p
    · simp only [processMessage, hp]
      simp [pubKeys_exceptRun]
    · simp only [processMessage, hp]
      by_cases h1 : (truthy p.idempotency_key &&
          env.cacheHas (p.idempotency_key.getD "")) = true
      · simp [h1, pubKeys]
      · have h1f : (truthy p.idempotency_key &&
            env.cacheHas (p.idempotency_key.getD "")) = false := by simpa using h1
        by_cases h2 : (p.token == "" || p.token.length < 10) = true
        · by_cases hnid : truthy d.notification_id
          · by_cases hf : env.updFailOk
            · simp [h1f, h2, hnid, hf, pubKeys]
            · have hff : env.updFailOk = false := by simpa using hf
              simp [h1f, h2, hnid, hff, pubKeys_exceptRun]
          · have hnf : truthy d.notification_id = false := by simpa using hnid
            by_cases hcr : env.createOk
            · simp [h1f, h2, hnf, hcr, pubKeys]
            · have hcf : env.createOk = false := by simpa using hcr
              simp [h1f, h2, hnf, hcf, pubKeys]
        · have h2f : (p.token == "" || p.token.length < 10) = false := by
            simpa using h2
          by_cases hnid : truthy d.notification_id
          · by_cases hproc : env.updProcOk
            · rcases hg : env.gateway with e | u
              · simp [h1f, h2f, hnid, hproc, hg, pubKeys_exceptRun,
                  pubKeys_append, pubKeys]
              · by_cases hsent : env.updSentOk
                · by_cases hkey : truthy p.idempotency_key = true
                  · have hch : env.cacheHas (p.idempotency_key.getD "") = false := by
                      rw [hkey] at h1f; simpa using h1f
                    by_cases hset : env.setIdemOk
                    · simp [h2f, hnid, hproc, hg, hsent, hkey, hch, hset, pubKeys]
                    · have hsf : env.setIdemOk = false := by simpa using hset
                      simp [h2f, hnid, hproc, hg, hsent, hkey, hch, hsf,
                        pubKeys_exceptRun, pubKeys_append, pubKeys]
                  · have hkf : truthy p.idempotency_key = false := by
                      simpa using hkey
                    simp [h2f, hnid, hproc, hg, hsent, hkf, pubKeys]
                · have hsef : env.updSentOk = false := by simpa using hsent
                  simp [h1f, h2f, hnid, hproc, hg, hsef, pubKeys_exceptRun,
                    pubKeys_append, pubKeys]
            · have hpf : env.updProcOk = false := by simpa using hproc
              simp [h1f, h2f, hnid, hpf, pubKeys_exceptRun]
          · have hnf : truthy d.notification_id = false := by simpa using hnid
            by_cases hcr : env.createOk
            · rcases hg : env.gateway with e | u
              · simp [h1f, h2f, hnf, hcr, hg, pubKeys_exceptRun,
                  pubKeys_append, pubKeys]
              · by_cases hfr : truthy (some env.freshId) = true
                · by_cases hsent : env.updSentOk
                  · by_cases hkey : truthy p.idempotency_key = true
                    · have hch : env.cacheHas (p.idempotency_key.getD "") = false := by
                        rw [hkey] at h1f; simpa using h1f
                      by_cases hset : env.setIdemOk
                      · simp [h2f, hnf, hcr, hg, hfr, hsent, hkey, hch, hset,
                          pubKeys]
                      · have hsf : env.setIdemOk = false := by simpa using hset
                        simp [h2f, hnf, hcr, hg, hfr, hsent, hkey, hch, hsf,
                          pubKeys_exceptRun, pubKeys_append, pubKeys]
                    · have hkf : truthy p.idempotency_key = false := by
                        simpa using hkey
                      simp [h2f, hnf, hcr, hg, hfr, hsent, hkf, pubKeys]
                  · have hsef : env.updSentOk = false := by simpa using hsent
                    simp [h1f, h2f, hnf, hcr, hg, hfr, hsef, pubKeys_exceptRun,
                      pubKeys_append, pubKeys]
                · have hfrf : truthy (some env.freshId) = false := by
                    simpa using hfr
                  by_cases hkey : truthy p.idempotency_key = true
                  · have hch : env.cacheHas (p.idempotency_key.getD "") = false := by
                      rw [hkey] at h1f; simpa using h1f
                    by_cases hset : env.setIdemOk
                    · simp [h2f, hnf, hcr, hg, hfrf, hkey, hch, hset, pubKeys]
                    · have hsf : env.setIdemOk = false := by simpa using hset
                      simp [h2f, hnf, hcr, hg, hfrf, hkey, hch, hsf,
                        pubKeys_exceptRun, pubKeys_append, pubKeys]
                  · have hkf : truthy p.idempotency_key = false := by
                      simpa using hkey
                    simp [h2f, hnf, hcr, hg, hfrf, hkf, pubKeys]
            · have hcf : env.createOk = false := by simpa using hcr
              rcases hg : env.gateway with e | u
              · simp [h1f, h2f, hnf, hcf, hg, pubKeys_exceptRun,
                  pubKeys_append, pubKeys]
              · by_cases hkey : truthy p.idempotency_key = true
                · have hch : env.cacheHas (p.idempotency_key.getD "") = false := by
                    rw [hkey] at h1f; simpa using h1f
                  by_cases hset : env.setIdemOk
                  · simp [h2f, hnf, hcf, hg, hkey, hch, hset, pubKeys]
                  · have hsf : env.setIdemOk = false := by simpa using hset
                    simp [h2f, hnf, hcf, hg, hkey, hch, hsf,
                      pubKeys_exceptRun, pubKeys_append, pubKeys]
                · have hkf : truthy p.idempotency_key = false := by
                    simpa using hkey
                  simp [h2f, hnf, hcf, hg, hkf, pubKeys]

/-- Structural facts about every `process_message` trace: the message is
always acknowledged; no store write ever uses status `pending`; every store
write carries a retry count bounded by the incoming one; every retry-queue
republish carries a retry count bounded by `maxRetries`; and when the
idempotency-guard write cannot raise, a `sent` write is the last store write
of the run. -/
theorem trace_facts (env : Env) (db : Db) (b : Body) :
    Effect.ack ∈ (processMessage env db b).1 ∧
    "pending" ∉ statusWrites (processMessage env db b).1 ∧
    (∀ n ∈ rcWrites (processMessage env db b).1, n ≤ rcOf b) ∧
    (∀ n ∈ retryRCs (processMessage env db b).1, n ≤ maxRetries) ∧
    (env.setIdemOk = true → "sent" ∈ statusWrites (processMessage env db b).1 →
      (statusWrites (processMessage env db b).1).getLast? = some "sent") := by
  rcases b with _ | d
  · simp [processMessage, exceptRun_eq, emptyMsg, MsgData.isEmpty, truthy, statusWrites, rcWrites, retryRCs, rcOf, retryQueue, deadLetterQueue, maxRetries, List.getLast?_cons_cons, List.getLast?_singleton]
  · rcases hp : parsePayload d with _ | p
    · simp only [processMessage, hp]
      by_cases hie0 : d.isEmpty = true
      · simp [exceptRun_eq, hie0, isEmpty_retry_count, isEmpty_notification_id,
          truthy, statusWrites, rcWrites, retryRCs, rcOf, retryQueue, deadLetterQueue, maxRetries, List.getLast?_cons_cons, List.getLast?_singleton]
      · have hie : d.isEmpty = false := by simpa using hie0
        by_cases hnid0 : truthy d.notification_id = true <;>
          by_cases hexc : env.updExcOk = true <;>
            by_cases hrc : d.retry_count.getD 0 < 3 <;>
              simp [exceptRun_eq, hexc, hrc, hie, hnid0, statusWrites, rcWrites, retryRCs, rcOf, retryQueue, deadLetterQueue, maxRetries, List.getLast?_cons_cons, List.getLast?_singleton] <;>
              try omega
    · have hie : d.isEmpty = false := parsePayload_not_empty hp
      simp only [processMessage, hp]
      by_cases h1 : (truthy p.idempotency_key &&
          env.cacheHas (p.idempotency_key.getD "")) = true
      · simp [h1, statusWrites, rcWrites, retryRCs, rcOf, retryQueue, deadLetterQueue, maxRetries, List.getLast?_cons_cons, List.getLast?_singleton]
      · have h1f : (truthy p.idempotency_key &&
            env.cacheHas (p.idempotency_key.getD "")) = false := by simpa using h1
        by_cases h2 : (p.token == "" || p.token.length < 10) = true
        · by_cases hnid : truthy d.notification_id
          · by_cases hf : env.updFailOk
            · simp [h1f, h2, hnid, hf, statusWrites, rcWrites, retryRCs, rcOf, retryQueue, deadLetterQueue, maxRetries, List.getLast?_cons_cons, List.getLast?_singleton]
            · have hff : env.updFailOk = false := by simpa using hf
              by_cases hexc : env.updExcOk = true <;>
                by_cases hrc : d.retry_count.getD 0 < 3 <;>
                  simp [exceptRun_eq, hexc, hrc, hie, h1f, h2, hnid, hff, statusWrites, rcWrites, retryRCs, rcOf, retryQueue, deadLetterQueue, maxRetries, List.getLast?_cons_cons, List.getLast?_singleton] <;>
                  try omega
          · have hnf : truthy d.notification_id = false := by simpa using hnid
            by_cases hcr : env.createOk
            · simp [h1f, h2, hnf, hcr, statusWrites, rcWrites, retryRCs, rcOf, retryQueue, deadLetterQueue, maxRetries, List.getLast?_cons_cons, List.getLast?_singleton]
            · have hcf : env.createOk = false := by simpa using hcr
              simp [h1f, h2, hnf, hcf, statusWrites, rcWrites, retryRCs, rcOf, retryQueue, deadLetterQueue, maxRetries, List.getLast?_cons_cons, List.getLast?_singleton]
        · have h2f : (p.token == "" || p.token.length < 10) = false := by
            simpa using h2
          by_cases hnid : truthy d.notification_id
          · by_cases hproc : env.updProcOk
            · rcases hg : env.gateway with e | u
              ·by_cases hexc : env.updExcOk = true <;>
                 by_cases hrc : d.retry_count.getD 0 < 3 <;>
                   simp [exceptRun_eq, hexc, hrc, hie, h1f, h2f, hnid, hproc, hg, statusWrites, rcWrites, retryRCs, rcOf, retryQueue, deadLetterQueue, maxRetries, List.getLast?_cons_cons, List.getLast?_singleton] <;>
                   try omega
              · by_cases hsent : env.updSentOk
                · by_cases hkey : truthy p.idempotency_key = true
                  · have hch : env.cacheHas (p.idempotency_key.getD "") = false := by
                      rw [hkey] at h1f; simpa using h1f
                    by_cases hset : env.setIdemOk
                    · simp [h2f, hnid, hproc, hg, hsent, hkey, hch, hset, statusWrites, rcWrites, retryRCs, rcOf, retryQueue, deadLetterQueue, maxRetries, List.getLast?_cons_cons, List.getLast?_singleton]
                    · have hsf : env.setIdemOk = false := by simpa using hset
                      by_cases hexc : env.updExcOk = true <;>
                        by_cases hrc : d.retry_count.getD 0 < 3 <;>
                          simp [exceptRun_eq, hexc, hrc, hie, h2f, hnid, hproc, hg, hsent, hkey, hch, hsf, statusWrites, rcWrites, retryRCs, rcOf, retryQueue, deadLetterQueue, maxRetries, List.getLast?_cons_cons, List.getLast?_singleton] <;>
                          try omega
                  · have hkf : truthy p.idempotency_key = false := by
                      simpa using hkey
                    simp [h2f, hnid, hproc, hg, hsent, hkf, statusWrites, rcWrites, retryRCs, rcOf, retryQueue, deadLetterQueue, maxRetries, List.getLast?_cons_cons, List.getLast?_singleton]
                · have hsef : env.updSentOk = false := by simpa using hsent
                  by_cases hexc : env.updExcOk = true <;>
                    by_cases hrc : d.retry_count.getD 0 < 3 <;>
                      simp [exceptRun_eq, hexc, hrc, hie, h1f, h2f, hnid, hproc, hg, hsef, statusWrites, rcWrites, retryRCs, rcOf, retryQueue, deadLetterQueue, maxRetries, List.getLast?_cons_cons, List.getLast?_singleton] <;>
                      try omega
            · have hpf : env.updProcOk = false := by simpa using hproc
              by_cases hexc : env.updExcOk = true <;>
                by_cases hrc : d.retry_count.getD 0 < 3 <;>
                  simp [exceptRun_eq, hexc, hrc, hie, h1f, h2f, hnid, hpf, statusWrites, rcWrites, retryRCs, rcOf, retryQueue, deadLetterQueue, maxRetries, List.getLast?_cons_cons, List.getLast?_singleton] <;>
                  try omega
          · have hnf : truthy d.notification_id = false := by simpa using hnid
            by_cases hcr : env.createOk
            · rcases hg : env.gateway with e | u
              ·by_cases hfr0 : truthy (some env.freshId) = true <;>
                 by_cases hexc : env.updExcOk = true <;>
                 by_cases hrc : d.retry_count.getD 0 < 3 <;>
                   simp [exceptRun_eq, hfr0, hexc, hrc, hie, h1f, h2f, hnf, hcr, hg, statusWrites, rcWrites, retryRCs, rcOf, retryQueue, deadLetterQueue, maxRetries, List.getLast?_cons_cons, List.getLast?_singleton] <;>
                   try omega
              · by_cases hfr : truthy (some env.freshId) = true
                · by_cases hsent : env.updSentOk
                  · by_cases hkey : truthy p.idempotency_key = true
                    · have hch : env.cacheHas (p.idempotency_key.getD "") = false := by
                        rw [hkey] at h1f; simpa using h1f
                      by_cases hset : env.setIdemOk
                      · simp [h2f, hnf, hcr, hg, hfr, hsent, hkey, hch, hset, statusWrites, rcWrites, retryRCs, rcOf, retryQueue, deadLetterQueue, maxRetries, List.getLast?_cons_cons, List.getLast?_singleton]
                      · have hsf : env.setIdemOk = false := by simpa using hset
                        by_cases hexc : env.updExcOk = true <;>
                          by_cases hrc : d.retry_count.getD 0 < 3 <;>
                            simp [exceptRun_eq, hexc, hrc, hie, h2f, hnf, hcr, hg, hfr, hsent, hkey, hch, hsf, statusWrites, rcWrites, retryRCs, rcOf, retryQueue, deadLetterQueue, maxRetries, List.getLast?_cons_cons, List.getLast?_singleton] <;>
                            try omega
                    · have hkf : truthy p.idempotency_key = false := by
                        simpa using hkey
                      simp [h2f, hnf, hcr, hg, hfr, hsent, hkf, statusWrites, rcWrites, retryRCs, rcOf, retryQueue, deadLetterQueue, maxRetries, List.getLast?_cons_cons, List.getLast?_singleton]
                  · have hsef : env.updSentOk = false := by simpa using hsent
                    by_cases hexc : env.updExcOk = true <;>
                      by_cases hrc : d.retry_count.getD 0 < 3 <;>
                        simp [exceptRun_eq, hexc, hrc, hie, h1f, h2f, hnf, hcr, hg, hfr, hsef, statusWrites, rcWrites, retryRCs, rcOf, retryQueue, deadLetterQueue, maxRetries, List.getLast?_cons_cons, List.getLast?_singleton] <;>
                        try omega
                · have hfrf : truthy (some env.freshId) = false := by
                    simpa using hfr
                  by_cases hkey : truthy p.idempotency_key = true
                  · have hch : env.cacheHas (p.idempotency_key.getD "") = false := by
                      rw [hkey] at h1f; simpa using h1f
                    by_cases hset : env.setIdemOk
                    · simp [h2f, hnf, hcr, hg, hfrf, hkey, hch, hset, statusWrites, rcWrites, retryRCs, rcOf, retryQueue, deadLetterQueue, maxRetries, List.getLast?_cons_cons, List.getLast?_singleton]
                    · have hsf : env.setIdemOk = false := by simpa using hset
                      by_cases hexc : env.updExcOk = true <;>
                        by_cases hrc : d.retry_count.getD 0 < 3 <;>
                          simp [exceptRun_eq, hexc, hrc, hie, h2f, hnf, hcr, hg, hfrf, hkey, hch, hsf, statusWrites, rcWrites, retryRCs, rcOf, retryQueue, deadLetterQueue, maxRetries, List.getLast?_cons_cons, List.getLast?_singleton] <;>
                          try omega
                  · have hkf : truthy p.idempotency_key = false := by
                      simpa using hkey
                    simp [h2f, hnf, hcr, hg, hfrf, hkf, statusWrites, rcWrites, retryRCs, rcOf, retryQueue, deadLetterQueue, maxRetries, List.getLast?_cons_cons, List.getLast?_singleton]
            · have hcf : env.createOk = false := by simpa using hcr
              rcases hg : env.gateway with e | u
              ·by_cases hexc : env.updExcOk = true <;>
                 by_cases hrc : d.retry_count.getD 0 < 3 <;>
                   simp [exceptRun_eq, hexc, hrc, hie, h1f, h2f, hnf, hcf, hg, statusWrites, rcWrites, retryRCs, rcOf, retryQueue, deadLetterQueue, maxRetries, List.getLast?_cons_cons, List.getLast?_singleton] <;>
                   try omega
              · by_cases hkey : truthy p.idempotency_key = true
                · have hch : env.cacheHas (p.idempotency_key.getD "") = false := by
                    rw [hkey] at h1f; simpa using h1f
                  by_cases hset : env.setIdemOk
                  · simp [h2f, hnf, hcf, hg, hkey, hch, hset, statusWrites, rcWrites, retryRCs, rcOf, retryQueue, deadLetterQueue, maxRetries, List.getLast?_cons_cons, List.getLast?_singleton]
                  · have hsf : env.setIdemOk = false := by simpa using hset
                    by_cases hexc : env.updExcOk = true <;>
                      by_cases hrc : d.retry_count.getD 0 < 3 <;>
                        simp [exceptRun_eq, hexc, hrc, hie, h2f, hnf, hcf, hg, hkey, hch, hsf, statusWrites, rcWrites, retryRCs, rcOf, retryQueue, deadLetterQueue, maxRetries, List.getLast?_cons_cons, List.getLast?_singleton] <;>
                        try omega
                · have hkf : truthy p.idempotency_key = false := by
                    simpa using hkey
                  simp [h2f, hnf, hcf, hg, hkf, statusWrites, rcWrites, retryRCs, rcOf, retryQueue, deadLetterQueue, maxRetries, List.getLast?_cons_cons, List.getLast?_singleton]

/-- Counterexample to C7 as stated: with the store failing exactly at the
unguarded `sent` status update, a message whose gateway call succeeds is
nevertheless routed to the retry queue and its record set to `retrying` —
the persistence exception was not swallowed at that step and the publish
decision was not determined by the delivery outcome alone. -/
theorem C7_counterexample :
    ({ envOk with updSentOk := false } : Env).gateway = Except.ok () ∧
    pubKeys (processMessage { envOk with updSentOk := false }
      [("N0", mkRecord msgWithNid "pending")] (Body.dict msgWithNid)).1 =
      [retryQueue] ∧
    statusWrites (processMessage { envOk with updSentOk := false }
      [("N0", mkRecord msgWithNid "pending")] (Body.dict msgWithNid)).1 =
      ["processing", "retrying"] :=
  ⟨rfl, rfl, rfl⟩

/-- Claim C7 (amended): a record-store exception at the guarded call sites —
record creation, and the status update inside the failure handler — is
swallowed there: it never changes which queues the message is published to,
and the message is always acknowledged.  An exception at the unguarded
`processing`/`sent` updates instead falls into the failure handler, which
still acknowledges and routes the message, but as if delivery had failed. -/
theorem C7_amended (env : Env) (db : Db) (b : Body) :
    Effect.ack ∈ (processMessage env db b).1 ∧
    pubKeys (processMessage { env with updExcOk := true } db b).1 =
      pubKeys (processMessage env db b).1 ∧
    (env.updSentOk = true →
      pubKeys (processMessage { env with createOk := true } db b).1 =
        pubKeys (processMessage env db b).1) := by
  refine ⟨(trace_facts env db b).1, ?_, ?_⟩
  · rw [pubKeys_processMessage, pubKeys_processMessage]
  · intro hsent
    rw [pubKeys_processMessage, pubKeys_processMessage]
    rcases b with _ | d
    · rfl
    · rcases hp : parsePayload d with _ | p
      · simp [hp]
      · rcases hg : env.gateway with e | u <;> simp [hp, hg, hsent]

/-- Witness for C7 (amended): with creation failing and delivery healthy,
the run acknowledges and publishes exactly as the all-healthy run does. -/
theorem C7_amended_witness :
    Effect.ack ∈ (processMessage { envOk with createOk := false } []
      (Body.dict msgValid)).1 ∧
    pubKeys (processMessage
      { { envOk with createOk := false } with createOk := true } []
      (Body.dict msgValid)).1 =
      pubKeys (processMessage { envOk with createOk := false } []
        (Body.dict msgValid)).1 := by
  have h := C7_amended { envOk with createOk := false } [] (Body.dict msgValid)
  exact ⟨h.1, h.2.2 rfl⟩

/-- Counterexample to C8 as stated: here the idempotency-guard write raises
just after a successful delivery at attempt count 0, and the record that was
set to `sent` is overwritten to `retrying` with the message republished — a
terminal `sent` is not preserved. -/
theorem C8_counterexample :
    statusWrites (processMessage { envOk with setIdemOk := false }
      [("N0", mkRecord msgWithNid "pending")] (Body.dict msgWithNid)).1 =
      ["processing", "sent", "retrying"] ∧
    (dbLookup (processMessage { envOk with setIdemOk := false }
      [("N0", mkRecord msgWithNid "pending")] (Body.dict msgWithNid)).2
      "N0").map (fun r => r.status) = some "retrying" :=
  ⟨rfl, rfl⟩

/-- Claim C8 (amended): across all consumer operations no store write ever
uses status `pending`; for every message whose incoming attempt count is at
most `maxRetries`, every store write and every retry republish keeps the
retry count at most `maxRetries` (3); and provided the idempotency-guard
write does not raise, a `sent` store write is always the last store write
of its run. -/
theorem C8_amended (env : Env) (db : Db) (b : Body) :
    "pending" ∉ statusWrites (processMessage env db b).1 ∧
    (rcOf b ≤ maxRetries →
      (∀ n ∈ rcWrites (processMessage env db b).1, n ≤ maxRetries) ∧
      (∀ n ∈ retryRCs (processMessage env db b).1, n ≤ maxRetries)) ∧
    (env.setIdemOk = true → "sent" ∈ statusWrites (processMessage env db b).1 →
      (statusWrites (processMessage env db b).1).getLast? = some "sent") := by
  obtain ⟨hack, hpend, hrcw, hrr, hsent⟩ := trace_facts env db b
  exact ⟨hpend, fun hb => ⟨fun n hn => le_trans (hrcw n hn) hb, hrr⟩, hsent⟩

/-- Witness for C8 (amended) on the happy-path run. -/
theorem C8_amended_witness :
    "pending" ∉ statusWrites (processMessage envOk [] (Body.dict msgValid)).1 ∧
    (∀ n ∈ rcWrites (processMessage envOk [] (Body.dict msgValid)).1,
      n ≤ maxRetries) ∧
    ("sent" ∈ statusWrites (processMessage envOk [] (Body.dict msgValid)).1 →
      (statusWrites (processMessage envOk [] (Body.dict msgValid)).1).getLast? =
        some "sent") := by
  have h := C8_amended envOk [] (Body.dict msgValid)
  exact ⟨h.1, (h.2.1 (by decide)).1, h.2.2 rfl⟩

end PushService
